import Mathlib

/-!
Photobooth film-strip compositor: verification of the spec's claims.

Shallow embedding of the film-strip compositing core of the photobooth
application.  The repository contains two near-identical "Cyber-shot"
screen variants:

* variant A (`client/src/pages/Home.tsx`, first document): pixel-coordinate
  sticker placements, `handleStickerDrag` / `handleStickerResize` /
  `handleStickerRotate`, scale clamped to `[0.5, 2]`, and
  download / print / share output guards;
* variant B (`client/src/App.tsx`, second document): cover-fit photo crop,
  per-pixel retro filter (`applyRetroFilter`), percentage-coordinate sticker
  placements clamped to `[0, 100]`, scale clamped to `[0.3, 2.5]`.

Both variants share the same layout geometry constants and the same
`totalHeight` formula in `generatePreview` and `generateFilmStrip`.

JavaScript `number` arithmetic is modelled over `ℚ` (the decimal literals of
the source are exact rationals); `Uint8ClampedArray` stores are modelled by
an explicit clamp-and-round-half-to-even function `byteStore`.
-/

namespace Photobooth

/-- The `LayoutType` of the source (`"single" | "strip"`); the `null` state is
never active during a render. -/
inductive LayoutType
  | single
  | strip
deriving DecidableEq, Repr

/-- Source: `const stripWidth = 600`. -/
def stripWidth : ℤ := 600

/-- Source: `const photoWidth = 560`. -/
def photoWidth : ℤ := 560

/-- Source: `const photoHeight = isSingle ? 560 : 400`. -/
def photoHeight (l : LayoutType) : ℤ :=
  if l = .single then 560 else 400

/-- Source: `const margin = 20`. -/
def margin : ℤ := 20

/-- Source: `const headerHeight = 100`. -/
def headerHeight : ℤ := 100

/-- Source: `const footerHeight = 100`. -/
def footerHeight : ℤ := 100

/-- Source: `const spacing = 10`. -/
def spacing : ℤ := 10

/-- Source: `const photoSectionHeight = isSingle ? photoHeight
      : photos.length * (photoHeight + spacing) - spacing`
(from `generatePreview` / `generateFilmStrip`, both variants). -/
def photoSectionHeight (l : LayoutType) (n : ℤ) : ℤ :=
  if l = .single then photoHeight l else n * (photoHeight l + spacing) - spacing

/-- Source: `const totalHeight = headerHeight + photoSectionHeight + footerHeight + margin * 2`. -/
def totalHeight (l : LayoutType) (n : ℤ) : ℤ :=
  headerHeight + photoSectionHeight l n + footerHeight + margin * 2

/-- C1: for every layout mode and every non-empty photo sequence of
length `n`, the composite canvas height computed by the film-strip
generators equals the closed-form band sum
`margin * 2 + headerHeight + photoSection + footerHeight`, where the photo
section is the single slot height `560` for `single` and the sum of the `n`
slot heights (`400` each) plus the `n - 1` inter-slot spacings (`10` each)
for `strip`. -/
theorem canvas_height_closed_form (l : LayoutType) (n : ℤ) (hn : 1 ≤ n) :
    totalHeight l n =
      margin * 2 + headerHeight +
        (if l = .single then 560 else n * 400 + (n - 1) * 10) + footerHeight := by
  cases l <;>
    simp [totalHeight, photoSectionHeight, photoHeight, margin, headerHeight,
      footerHeight, spacing] <;> ring

/-- Witness for `canvas_height_closed_form` at a strip of 4 photos:
`totalHeight = 40 + 100 + (4 * 400 + 3 * 10) + 100 = 1870`. -/
theorem canvas_height_closed_form_witness :
    (1 : ℤ) ≤ 4 ∧
      totalHeight .strip 4 =
        margin * 2 + headerHeight + ((4 : ℤ) * 400 + (4 - 1) * 10) + footerHeight := by
  refine ⟨by norm_num, ?_⟩
  simpa using canvas_height_closed_form .strip 4 (by norm_num)

/-- Source `interface CapturedPhoto` (the timestamp-derived strings are passed to the
render separately, see `filmStripOps`). -/
structure CapturedPhoto where
  dataUrl : String
deriving DecidableEq, Repr

/-- Source `interface StickerPosition` (both variants; variant A reads `x`, `y` as
canvas pixels, variant B as percentages of the canvas size). -/
structure StickerPosition where
  id : String
  type : String
  x : ℚ
  y : ℚ
  rotation : ℚ
  scale : ℚ
deriving DecidableEq, Repr, Inhabited

/-- One drawing operation committed to the output canvas by
`generateFilmStrip` (variant A), in program order. -/
inductive Op
  | background
  | grain (count : ℕ)
  | headerRect
  | headerText (s : String)
  | photoMatte (idx : ℕ)
  | photoDraw (idx : ℕ)
  | footerRect
  | footerText (s : String)
  | dateText (s : String)
  | stickerDraw (st : StickerPosition)
deriving DecidableEq, Repr

/-- True iff `op` is part of a per-photo block (the matte rectangle behind a photo or
the photo bitmap itself). -/
def isPhotoBlockOp : Op → Bool
  | .photoMatte _ => true
  | .photoDraw _ => true
  | _ => false

/-- True iff `op` draws a user-placed sticker. -/
def isStickerOp : Op → Bool
  | .stickerDraw _ => true
  | _ => false

/-- Header band of `generateFilmStrip` (variant A): dark rectangle, fixed
readout string, then the month/year plus event text (uppercased, falling
back to `"MEMORIES"` when empty, as `eventText.toUpperCase() || "MEMORIES"`). -/
def headerOps (eventText monthYear : String) : List Op :=
  [.headerRect,
   .headerText "REC ● PLAY ▲ SP   CYBER-SHOT",
   .headerText (monthYear ++ " — " ++
     (if eventText.toUpper = "" then "MEMORIES" else eventText.toUpper))]

/-- Per-photo loop of `generateFilmStrip` (variant A): for each photo, first
the white matte rectangle, then the photo bitmap. -/
def photoOps (n : ℕ) : List Op :=
  (List.range n).flatMap fun i => [.photoMatte i, .photoDraw i]

/-- Footer band of `generateFilmStrip` (variant A): dark rectangle, fixed
label, footer text (uppercased, falling back to `"MEMORIES MADE"`), then the
formatted capture date. -/
def footerOps (footerText dateStr : String) : List Op :=
  [.footerRect,
   .footerText "CYBER-SHOT BOOTH",
   .footerText (if footerText.toUpper = "" then "MEMORIES MADE" else footerText.toUpper),
   .dateText dateStr]

/-- Everything `generateFilmStrip` (variant A) draws before the sticker
loop: background fill, grain pass, header band, photo blocks, footer band. -/
def frontOps (n : ℕ) (eventText footerText monthYear dateStr : String) : List Op :=
  [.background, .grain 1500] ++ headerOps eventText monthYear ++
    photoOps n ++ footerOps footerText dateStr

/-- Final sticker loop of `generateFilmStrip` (variant A):
`for (const sticker of stickers) ...` in insertion order. -/
def stickerOps (stickers : List StickerPosition) : List Op :=
  stickers.map .stickerDraw

/-- Full draw sequence of `generateFilmStrip` (variant A), in program
order. -/
def filmStripOps (photos : List CapturedPhoto) (stickers : List StickerPosition)
    (eventText footerText monthYear dateStr : String) : List Op :=
  frontOps photos.length eventText footerText monthYear dateStr ++ stickerOps stickers

/-- The finished raster: canvas dimensions plus the committed draw
sequence. -/
structure Composite where
  width : ℤ
  height : ℤ
  ops : List Op
deriving DecidableEq, Repr

/-- Model of `generateFilmStrip` (variant A).  The source begins with
`if (photos.length === 0 || !filmStripCanvasRef.current) return;`, so an
empty photo sequence produces no composite at all (modelled as `none`);
otherwise the canvas is sized to `stripWidth × totalHeight` and the draw
sequence `filmStripOps` is committed. -/
def generateFilmStrip (l : LayoutType) (photos : List CapturedPhoto)
    (stickers : List StickerPosition)
    (eventText footerText monthYear dateStr : String) : Option Composite :=
  if photos.length = 0 then none
  else some
    { width := stripWidth
      height := totalHeight l (photos.length : ℤ)
      ops := filmStripOps photos stickers eventText footerText monthYear dateStr }

/-- No operation drawn before the sticker loop is a sticker draw. -/
theorem frontOps_not_sticker (n : ℕ) (e f m d : String) :
    ∀ op ∈ frontOps n e f m d, isStickerOp op = false := by
  intro op hop
  cases op <;> try rfl
  case stickerDraw st =>
    exfalso
    simp [frontOps, headerOps, photoOps, footerOps] at hop

/-- No operation of the sticker loop is a photo-block draw. -/
theorem stickerOps_not_photo (stickers : List StickerPosition) :
    ∀ op ∈ stickerOps stickers, isPhotoBlockOp op = false := by
  intro op hop
  cases op <;> try rfl
  case photoMatte i =>
    exfalso; simp [stickerOps] at hop
  case photoDraw i =>
    exfalso; simp [stickerOps] at hop

/-- In a concatenation whose first part has no `Q`-element and whose second
part has no `P`-element, every `P`-position precedes every `Q`-position. -/
theorem append_pos_lt {α : Type} (P Q : α → Bool) (xs ys : List α)
    (hx : ∀ a ∈ xs, Q a = false) (hy : ∀ a ∈ ys, P a = false)
    (i j : ℕ) (hi : i < (xs ++ ys).length) (hj : j < (xs ++ ys).length)
    (hP : P ((xs ++ ys).get ⟨i, hi⟩) = true)
    (hQ : Q ((xs ++ ys).get ⟨j, hj⟩) = true) : i < j := by
  rcases lt_or_le i xs.length with h1 | h1
  · rcases lt_or_le j xs.length with h2 | h2
    · exfalso
      have hget : (xs ++ ys).get ⟨j, hj⟩ = xs.get ⟨j, h2⟩ := by
        simpa using List.getElem_append_left h2
      have := hx (xs.get ⟨j, h2⟩) (List.get_mem xs j h2)
      rw [hget, this] at hQ
      exact Bool.false_ne_true hQ
    · exact lt_of_lt_of_le h1 h2
  · exfalso
    have hi' : i - xs.length < ys.length := by
      have := hi
      simp only [List.length_append] at this
      omega
    have hget : (xs ++ ys).get ⟨i, hi⟩ = ys.get ⟨i - xs.length, hi'⟩ := by
      simpa using List.getElem_append_right h1
    have := hy (ys.get ⟨i - xs.length, hi'⟩) (List.get_mem ys _ hi')
    rw [hget, this] at hP
    exact Bool.false_ne_true hP

/-- C4: in the plain-variant final composite, every sticker draw occurs
strictly after every photo-block draw (matte or photo bitmap), and the
sticker draws appear exactly in insertion order (first placed is
bottom-most). -/
theorem stickers_above_photos_in_order (photos : List CapturedPhoto)
    (stickers : List StickerPosition) (e f m d : String) :
    (∀ i j (hi : i < (filmStripOps photos stickers e f m d).length)
        (hj : j < (filmStripOps photos stickers e f m d).length),
      isPhotoBlockOp ((filmStripOps photos stickers e f m d).get ⟨i, hi⟩) = true →
      isStickerOp ((filmStripOps photos stickers e f m d).get ⟨j, hj⟩) = true →
      i < j) ∧
    (filmStripOps photos stickers e f m d).filter isStickerOp =
      stickers.map Op.stickerDraw := by
  constructor
  · intro i j hi hj hP hQ
    exact append_pos_lt isPhotoBlockOp isStickerOp _ _
      (frontOps_not_sticker photos.length e f m d)
      (stickerOps_not_photo stickers) i j hi hj hP hQ
  · rw [filmStripOps, List.filter_append]
    have h1 : (frontOps photos.length e f m d).filter isStickerOp = [] := by
      rw [List.filter_eq_nil_iff]
      intro a ha
      simp [frontOps_not_sticker photos.length e f m d a ha]
    have h2 : (stickerOps stickers).filter isStickerOp = stickers.map Op.stickerDraw := by
      rw [stickerOps, List.filter_map]
      have : (isStickerOp ∘ Op.stickerDraw) = fun _ => true := by
        funext st; rfl
      rw [this, List.filter_true]
    rw [h1, h2, List.nil_append]

/-- Demo photo for concrete witnesses. -/
def demoPhoto : CapturedPhoto := ⟨"data:image/png"⟩

/-- Demo sticker for concrete witnesses. -/
def demoSticker : StickerPosition :=
  { id := "sticker-1", type := "star", x := 100, y := 200, rotation := 15, scale := 1 }

/-- Witness for `stickers_above_photos_in_order`: with one photo and one
sticker, the photo bitmap is drawn at position 6 and the sticker at
position 11, so the sticker is on top. -/
theorem stickers_above_photos_in_order_witness :
    isPhotoBlockOp ((filmStripOps [demoPhoto] [demoSticker] "" "" "JAN 2025"
        "01 Jan 2025").get ⟨6, by decide⟩) = true ∧
    isStickerOp ((filmStripOps [demoPhoto] [demoSticker] "" "" "JAN 2025"
        "01 Jan 2025").get ⟨11, by decide⟩) = true ∧
    (6 : ℕ) < 11 := by
  refine ⟨by decide, by decide, ?_⟩
  exact (stickers_above_photos_in_order [demoPhoto] [demoSticker] "" "" "JAN 2025"
    "01 Jan 2025").1 6 11 (by decide) (by decide) (by decide) (by decide)

/-- Formal statement of claim C3 as written: at `photoCount = 0` the
compositor still produces a composite (of header+footer-only height).
The code refutes this: `generateFilmStrip` starts with
`if (photos.length === 0 || ...) return;`, so the empty photo sequence
yields no composite at all. -/
theorem empty_sequence_produces_no_composite :
    generateFilmStrip .strip [] [] "" "" "" "" = none := rfl

/-- C3 (amended): when the photo sequence is empty the compositor returns
immediately without raising an error and without producing any composite —
no canvas is sized and no layer is drawn, for every layout mode, sticker
collection and text input. -/
theorem empty_sequence_noop (l : LayoutType) (stickers : List StickerPosition)
    (e f m d : String) :
    generateFilmStrip l [] stickers e f m d = none := rfl

/-- Variant A `handleStickerDrag`: adds the pointer delta to the dragged
sticker's position and clamps each coordinate with
`Math.max(0, Math.min(600 - 80 * s.scale, s.x + dx))`. -/
def handleStickerDrag (stickers : List StickerPosition) (id : String)
    (dx dy : ℚ) : List StickerPosition :=
  stickers.map fun s =>
    if s.id = id then
      { s with
        x := max 0 (min (600 - 80 * s.scale) (s.x + dx))
        y := max 0 (min (600 - 80 * s.scale) (s.y + dy)) }
    else s

/-- Variant A `handleStickerResize`: sets the dragged sticker's scale to
`Math.max(0.5, Math.min(2, scale))`. -/
def handleStickerResize (stickers : List StickerPosition) (id : String)
    (scale : ℚ) : List StickerPosition :=
  stickers.map fun s =>
    if s.id = id then { s with scale := max 0.5 (min 2 scale) } else s

/-- Variant A `handleStickerRotate`: replaces the sticker's rotation, leaving
everything else alone. -/
def handleStickerRotate (stickers : List StickerPosition) (id : String)
    (rotation : ℚ) : List StickerPosition :=
  stickers.map fun s =>
    if s.id = id then { s with rotation := rotation } else s

/-- Variant B `resizeSticker`: adds the delta to the sticker's scale and
clamps with `Math.max(0.3, Math.min(2.5, s.scale + delta))`. -/
def resizeSticker (stickers : List StickerPosition) (id : String)
    (delta : ℚ) : List StickerPosition :=
  stickers.map fun s =>
    if s.id = id then { s with scale := max 0.3 (min 2.5 (s.scale + delta)) } else s

/-- Variant B `updateStickerPosition` applied to an x-and-y update (as
the drag handler does). -/
def updateStickerPosition (stickers : List StickerPosition) (id : String)
    (x y : ℚ) : List StickerPosition :=
  stickers.map fun s => if s.id = id then { s with x := x, y := y } else s

/-- Variant B drag: the `handleMove` closure of `handleStickerDrag` computes
the pointer's percentage position clamped with
`Math.max(0, Math.min(100, ...))` on each axis and stores it. -/
def handleMove (stickers : List StickerPosition) (id : String)
    (rawX rawY : ℚ) : List StickerPosition :=
  updateStickerPosition stickers id (max 0 (min 100 rawX)) (max 0 (min 100 rawY))

/-- Scale bounds of variant A (`[0.5, 2]`). -/
def scaleInBoundsA (s : StickerPosition) : Prop :=
  0.5 ≤ s.scale ∧ s.scale ≤ 2

/-- Scale bounds of variant B (`[0.3, 2.5]`). -/
def scaleInBoundsB (s : StickerPosition) : Prop :=
  0.3 ≤ s.scale ∧ s.scale ≤ 2.5

instance (s : StickerPosition) : Decidable (scaleInBoundsA s) := by
  unfold scaleInBoundsA; infer_instance

instance (s : StickerPosition) : Decidable (scaleInBoundsB s) := by
  unfold scaleInBoundsB; infer_instance

/-- One variant-A resize preserves the `[0.5, 2]` scale bounds of every
sticker (the resized one is clamped, the others are untouched). -/
theorem handleStickerResize_preserves (stickers : List StickerPosition)
    (id : String) (v : ℚ) (hb : ∀ t ∈ stickers, scaleInBoundsA t) :
    ∀ s ∈ handleStickerResize stickers id v, scaleInBoundsA s := by
  intro s hs
  simp only [handleStickerResize, List.mem_map] at hs
  obtain ⟨t, ht, rfl⟩ := hs
  by_cases hid : t.id = id
  · simp only [hid, if_true]
    constructor
    · exact le_max_left _ _
    · exact max_le (by norm_num) (min_le_left _ _)
  · simp only [hid, if_false]
    exact hb t ht

/-- One variant-B resize preserves the `[0.3, 2.5]` scale bounds of every
sticker. -/
theorem resizeSticker_preserves (stickers : List StickerPosition)
    (id : String) (delta : ℚ) (hb : ∀ t ∈ stickers, scaleInBoundsB t) :
    ∀ s ∈ resizeSticker stickers id delta, scaleInBoundsB s := by
  intro s hs
  simp only [resizeSticker, List.mem_map] at hs
  obtain ⟨t, ht, rfl⟩ := hs
  by_cases hid : t.id = id
  · simp only [hid, if_true]
    constructor
    · exact le_max_left _ _
    · exact max_le (by norm_num) (min_le_left _ _)
  · simp only [hid, if_false]
    exact hb t ht

/-- C5: for every sticker list whose scales start within the configured
bounds and every sequence of resize operations (each a target id plus a
requested value / delta), all scales remain within the bounds — `[0.5, 2]`
under variant A's `handleStickerResize`, `[0.3, 2.5]` under variant B's
`resizeSticker` — so repeated upward resizes never exceed the maximum and
repeated downward resizes never go below the minimum. -/
theorem resize_scale_always_in_bounds
    (stA stB : List StickerPosition) (opsA opsB : List (String × ℚ))
    (hA : ∀ t ∈ stA, scaleInBoundsA t) (hB : ∀ t ∈ stB, scaleInBoundsB t) :
    (∀ s ∈ opsA.foldl (fun st p => handleStickerResize st p.1 p.2) stA,
      scaleInBoundsA s) ∧
    (∀ s ∈ opsB.foldl (fun st p => resizeSticker st p.1 p.2) stB,
      scaleInBoundsB s) := by
  constructor
  · induction opsA generalizing stA with
    | nil => exact hA
    | cons p rest ih =>
      exact ih _ (handleStickerResize_preserves stA p.1 p.2 hA)
  · induction opsB generalizing stB with
    | nil => exact hB
    | cons p rest ih =>
      exact ih _ (resizeSticker_preserves stB p.1 p.2 hB)

/-- Witness for `resize_scale_always_in_bounds`: growing `demoSticker`
(scale 1) twice by requesting scale 9 and shrinking by requesting `-9`
leaves its scale within `[0.5, 2]`; likewise for variant B deltas. -/
theorem resize_scale_always_in_bounds_witness :
    scaleInBoundsA
      ([("sticker-1", (9 : ℚ)), ("sticker-1", -9)].foldl
        (fun st p => handleStickerResize st p.1 p.2) [demoSticker]).head! ∧
    scaleInBoundsB
      ([("sticker-1", (9 : ℚ)), ("sticker-1", -9)].foldl
        (fun st p => resizeSticker st p.1 p.2) [demoSticker]).head! := by
  have h := resize_scale_always_in_bounds [demoSticker] [demoSticker]
    [("sticker-1", (9 : ℚ)), ("sticker-1", -9)] [("sticker-1", (9 : ℚ)), ("sticker-1", -9)]
    (by norm_num [scaleInBoundsA, demoSticker])
    (by norm_num [scaleInBoundsB, demoSticker])
  constructor
  · exact h.1 _ (List.head!_mem_self
      (List.ne_nil_of_length_pos (by simp [handleStickerResize])))
  · exact h.2 _ (List.head!_mem_self
      (List.ne_nil_of_length_pos (by simp [resizeSticker])))

/-- C6: rotation and position mutations are independent.  Rotating leaves
every sticker's position and scale unchanged, dragging leaves every
sticker's rotation and scale unchanged, and a sticker whose id does not
match is left entirely unchanged by both. -/
theorem rotate_drag_independent (stickers : List StickerPosition)
    (id : String) (r dx dy : ℚ) (i : ℕ) (t : StickerPosition)
    (ht : stickers[i]? = some t) :
    ((handleStickerRotate stickers id r)[i]?.map fun u => (u.x, u.y, u.scale)) =
      some (t.x, t.y, t.scale) ∧
    ((handleStickerDrag stickers id dx dy)[i]?.map fun u => (u.rotation, u.scale)) =
      some (t.rotation, t.scale) ∧
    (t.id ≠ id →
      (handleStickerRotate stickers id r)[i]? = some t ∧
      (handleStickerDrag stickers id dx dy)[i]? = some t) := by
  refine ⟨?_, ?_, fun hne => ⟨?_, ?_⟩⟩
  · simp only [handleStickerRotate, List.getElem?_map, ht, Option.map_some]
    by_cases hid : t.id = id <;> simp [hid]
  · simp only [handleStickerDrag, List.getElem?_map, ht, Option.map_some]
    by_cases hid : t.id = id <;> simp [hid]
  · simp only [handleStickerRotate, List.getElem?_map, ht, Option.map_some]
    simp [hne]
  · simp only [handleStickerDrag, List.getElem?_map, ht, Option.map_some]
    simp [hne]

/-- Second demo sticker (different id) for concrete witnesses. -/
def demoSticker2 : StickerPosition :=
  { id := "sticker-2", type := "heart", x := 300, y := 40, rotation := 90, scale := 2 }

/-- Witness for `rotate_drag_independent`: rotating / dragging
`"sticker-1"` in a two-sticker list leaves `demoSticker2` (index 1)
untouched, and its position, rotation and scale projections are
preserved. -/
theorem rotate_drag_independent_witness :
    ((handleStickerRotate [demoSticker, demoSticker2] "sticker-1" 30)[1]?.map
        fun u => (u.x, u.y, u.scale)) =
      some (demoSticker2.x, demoSticker2.y, demoSticker2.scale) ∧
    ((handleStickerDrag [demoSticker, demoSticker2] "sticker-1" 3 4)[1]?.map
        fun u => (u.rotation, u.scale)) =
      some (demoSticker2.rotation, demoSticker2.scale) ∧
    ((handleStickerRotate [demoSticker, demoSticker2] "sticker-1" 30)[1]? =
        some demoSticker2 ∧
      (handleStickerDrag [demoSticker, demoSticker2] "sticker-1" 3 4)[1]? =
        some demoSticker2) := by
  have h := rotate_drag_independent [demoSticker, demoSticker2] "sticker-1"
    30 3 4 1 demoSticker2 rfl
  exact ⟨h.1, h.2.1, h.2.2 (by decide)⟩

/-- Demo sticker with percentage coordinates (variant B) for concrete
witnesses. -/
def demoStickerB : StickerPosition :=
  { id := "sticker-1", type := "smiley", x := 50, y := 60, rotation := 0, scale := 1 }

/-- Canvas bounds of variant A drag: each coordinate within
`[0, 600 - 80 * scale]`. -/
def posInBoundsA (s : StickerPosition) : Prop :=
  0 ≤ s.x ∧ s.x ≤ 600 - 80 * s.scale ∧ 0 ≤ s.y ∧ s.y ≤ 600 - 80 * s.scale

/-- Canvas bounds of variant B drag: each percentage coordinate within
`[0, 100]`. -/
def posInBoundsB (s : StickerPosition) : Prop :=
  0 ≤ s.x ∧ s.x ≤ 100 ∧ 0 ≤ s.y ∧ s.y ≤ 100

instance (s : StickerPosition) : Decidable (posInBoundsA s) := by
  unfold posInBoundsA; infer_instance

instance (s : StickerPosition) : Decidable (posInBoundsB s) := by
  unfold posInBoundsB; infer_instance

/-- C9: a drag never moves a sticker's anchor outside the canvas.  If every
sticker starts within bounds then after any variant-A drag every sticker's
coordinates lie within `[0, 600 - 80 * scale]`, and after any variant-B drag
every percentage coordinate lies within `[0, 100]`. -/
theorem drag_keeps_stickers_in_bounds
    (stA stB : List StickerPosition) (idA idB : String) (dx dy rawX rawY : ℚ)
    (hA : ∀ t ∈ stA, posInBoundsA t) (hB : ∀ t ∈ stB, posInBoundsB t) :
    (∀ s ∈ handleStickerDrag stA idA dx dy, posInBoundsA s) ∧
    (∀ s ∈ handleMove stB idB rawX rawY, posInBoundsB s) := by
  constructor
  · intro s hs
    simp only [handleStickerDrag, List.mem_map] at hs
    obtain ⟨t, ht, rfl⟩ := hs
    by_cases hid : t.id = idA
    · have hub : (0 : ℚ) ≤ 600 - 80 * t.scale := le_trans (hA t ht).1 (hA t ht).2.1
      simp only [hid, if_true]
      refine ⟨le_max_left _ _, ?_, le_max_left _ _, ?_⟩ <;>
        exact max_le hub (min_le_left _ _)
    · simp only [hid, if_false]
      exact hA t ht
  · intro s hs
    simp only [handleMove, updateStickerPosition, List.mem_map] at hs
    obtain ⟨t, ht, rfl⟩ := hs
    by_cases hid : t.id = idB
    · simp only [hid, if_true]
      exact ⟨le_max_left _ _, max_le (by norm_num) (min_le_left _ _),
        le_max_left _ _, max_le (by norm_num) (min_le_left _ _)⟩
    · simp only [hid, if_false]
      exact hB t ht

/-- Witness for `drag_keeps_stickers_in_bounds`: dragging `demoSticker`
(scale 1, position (100, 200)) by (10000, -10000) clamps it back into
`[0, 520]`, and the variant-B drag to raw position (150%, -3%) clamps into
`[0, 100]`. -/
theorem drag_keeps_stickers_in_bounds_witness :
    posInBoundsA (handleStickerDrag [demoSticker] "sticker-1" 10000 (-10000)).head! ∧
    posInBoundsB (handleMove [demoStickerB] "sticker-1" 150 (-3)).head! := by
  have h := drag_keeps_stickers_in_bounds [demoSticker] [demoStickerB] "sticker-1"
    "sticker-1" 10000 (-10000) 150 (-3)
    (by norm_num [posInBoundsA, demoSticker])
    (by norm_num [posInBoundsB, demoStickerB])
  constructor
  · exact h.1 _ (List.head!_mem_self
      (List.ne_nil_of_length_pos (by simp [handleStickerDrag])))
  · exact h.2 _ (List.head!_mem_self
      (List.ne_nil_of_length_pos (by simp [handleMove, updateStickerPosition])))

/-- Source sub-rectangle handed to `drawImage` (variant B photo draw):
`sx, sy, sw, sh`. -/
structure SrcRect where
  sx : ℚ
  sy : ℚ
  sw : ℚ
  sh : ℚ
deriving DecidableEq, Repr

/-- Cover-fit crop of `generateFilmStrip` / `generatePreview` (variant B):
```
const imgAspect = img.width / img.height;
const targetAspect = photoWidth / photoHeight;
let sx = 0, sy = 0, sw = img.width, sh = img.height;
if (imgAspect > targetAspect) then sw = img.height * targetAspect; sx = (img.width - sw) / 2
else sh = img.width / targetAspect; sy = (img.height - sh) / 2
```
The destination rectangle of the subsequent `drawImage` is always the full
slot `(margin, currentY, photoWidth, photoHeight)`. -/
def coverFit (imgW imgH destW destH : ℚ) : SrcRect :=
  let imgAspect := imgW / imgH
  let targetAspect := destW / destH
  if imgAspect > targetAspect then
    { sx := (imgW - imgH * targetAspect) / 2, sy := 0,
      sw := imgH * targetAspect, sh := imgH }
  else
    { sx := 0, sy := (imgH - imgW / targetAspect) / 2,
      sw := imgW, sh := imgW / targetAspect }

/-- Photo draw of variant A's `generateFilmStrip` (Home.tsx lines 330-335,
and identically its `generatePreview` and the Y2K variant):
`ctx.drawImage(img, photoX, currentY, 560, photoHeight)` — the five-argument
`drawImage` form, which takes no source rectangle: the whole source bitmap
is stretched into the slot, so the implied drawn source sub-rectangle is the
full bitmap `(0, 0, imgW, imgH)`. -/
def homeDrawSrcRect (imgW imgH : ℚ) : SrcRect :=
  { sx := 0, sy := 0, sw := imgW, sh := imgH }

/-- Counterexample to claim C2 as stated: the claim quantifies over every
photo draw in the plain path, but variant A's draw (`homeDrawSrcRect`)
performs no crop.  At a 4:3 source bitmap in the 560×400 strip slot the
source is not wider than the slot (`4/3 ≤ 560/400`), yet the drawn source
sub-rectangle keeps the full height 3 instead of the claimed
`imgW * (destH / destW) = 20/7`, its aspect `4/3` differs from the slot
aspect `560/400 = 7/5`, and it differs from the cover-fit crop that
variant B would compute. -/
theorem home_photo_draw_not_cover_fit :
    ¬ (4 : ℚ) / 3 > (560 : ℚ) / 400 ∧
    (homeDrawSrcRect 4 3).sh ≠ (4 : ℚ) * (400 / 560) ∧
    (homeDrawSrcRect 4 3).sw / (homeDrawSrcRect 4 3).sh ≠ (560 : ℚ) / 400 ∧
    homeDrawSrcRect 4 3 ≠ coverFit 4 3 560 400 := by
  refine ⟨by norm_num, by norm_num [homeDrawSrcRect], by norm_num [homeDrawSrcRect], ?_⟩
  have hc : ¬ (4 : ℚ) / 3 > (560 : ℚ) / 400 := by norm_num
  simp only [homeDrawSrcRect, coverFit, hc, if_false, ne_eq, SrcRect.mk.injEq]
  intro h
  have := h.2.2.2
  norm_num at this

/-- C2 (amended): variant A's plain-path draws stretch the full source
bitmap into the slot with no crop (see `home_photo_draw_not_cover_fit`);
the cover-fit crop is applied at variant B's photo draws only, and for
those draws the claimed properties hold — for all positive source
dimensions `(imgW, imgH)` and slot
dimensions `(destW, destH)`: if the source is wider than the slot the crop
keeps the full height and takes width `imgH * (destW / destH)`, otherwise
it keeps the full width and takes height `imgW * (destH / destW)`; in both
cases the crop is centered in the source, its aspect equals the slot aspect
`destW / destH` exactly, and its dimensions are positive (the crop is then
stretched onto the full slot, so the drawn region fills the slot). -/
theorem coverFit_fills_slot (imgW imgH destW destH : ℚ)
    (hW : 0 < imgW) (hH : 0 < imgH) (hdW : 0 < destW) (hdH : 0 < destH) :
    (imgW / imgH > destW / destH →
      (coverFit imgW imgH destW destH).sw = imgH * (destW / destH) ∧
      (coverFit imgW imgH destW destH).sh = imgH ∧
      (coverFit imgW imgH destW destH).sx =
        (imgW - imgH * (destW / destH)) / 2 ∧
      (coverFit imgW imgH destW destH).sy = 0) ∧
    (¬ imgW / imgH > destW / destH →
      (coverFit imgW imgH destW destH).sh = imgW * (destH / destW) ∧
      (coverFit imgW imgH destW destH).sw = imgW ∧
      (coverFit imgW imgH destW destH).sy =
        (imgH - imgW * (destH / destW)) / 2 ∧
      (coverFit imgW imgH destW destH).sx = 0) ∧
    (coverFit imgW imgH destW destH).sx +
        (coverFit imgW imgH destW destH).sw / 2 = imgW / 2 ∧
    (coverFit imgW imgH destW destH).sy +
        (coverFit imgW imgH destW destH).sh / 2 = imgH / 2 ∧
    (coverFit imgW imgH destW destH).sw /
        (coverFit imgW imgH destW destH).sh = destW / destH ∧
    0 < (coverFit imgW imgH destW destH).sw ∧
    0 < (coverFit imgW imgH destW destH).sh := by
  have hH' : imgH ≠ 0 := ne_of_gt hH
  have hW' : imgW ≠ 0 := ne_of_gt hW
  have hdW' : destW ≠ 0 := ne_of_gt hdW
  have hdH' : destH ≠ 0 := ne_of_gt hdH
  have haspect : (0 : ℚ) < destW / destH := div_pos hdW hdH
  by_cases hc : imgW / imgH > destW / destH
  · have e : coverFit imgW imgH destW destH =
        { sx := (imgW - imgH * (destW / destH)) / 2, sy := 0,
          sw := imgH * (destW / destH), sh := imgH } := by
      simp [coverFit, hc]
    rw [e]
    dsimp only
    refine ⟨fun _ => ⟨rfl, rfl, rfl, rfl⟩, fun h => absurd hc h, by ring, by ring,
      ?_, ?_, hH⟩
    · rw [mul_comm, mul_div_assoc, div_self hH', mul_one]
    · exact mul_pos hH haspect
  · have e : coverFit imgW imgH destW destH =
        { sx := 0, sy := (imgH - imgW / (destW / destH)) / 2,
          sw := imgW, sh := imgW / (destW / destH) } := by
      simp [coverFit, hc]
    have hdiv : imgW / (destW / destH) = imgW * (destH / destW) := by
      field_simp
    rw [e]
    dsimp only
    refine ⟨fun h => absurd h hc, fun _ => ⟨hdiv, rfl, by rw [hdiv], rfl⟩,
      by ring, by rw [hdiv]; ring, ?_, hW, ?_⟩
    · rw [div_div_eq_mul_div, mul_comm, mul_div_assoc, div_self hW', mul_one]
    · exact div_pos hW haspect

/-- Witness for `coverFit_fills_slot`: a 4:3 source into the 560×400 slot
is wider than the slot (4/3 > 7/5), so the crop keeps the full height 3
and its aspect equals 560/400 exactly. -/
theorem coverFit_fills_slot_witness :
    (0 : ℚ) < 4 ∧ (0 : ℚ) < 3 ∧ (0 : ℚ) < 560 ∧ (0 : ℚ) < 400 ∧
    (coverFit 4 3 560 400).sw / (coverFit 4 3 560 400).sh = 560 / 400 ∧
    0 < (coverFit 4 3 560 400).sw ∧ 0 < (coverFit 4 3 560 400).sh := by
  have h := coverFit_fills_slot 4 3 560 400 (by norm_num) (by norm_num)
    (by norm_num) (by norm_num)
  exact ⟨by norm_num, by norm_num, by norm_num, by norm_num,
    h.2.2.2.2.1, h.2.2.2.2.2.1, h.2.2.2.2.2.2⟩

/-- A rotation of the 2D drawing context about the current origin, with
`c`, `s` standing for the cosine and sine of the rotation angle (any pair
of reals; a genuine rotation is the case `c^2 + s^2 = 1`). -/
def rotatePoint (c s : ℚ) (p : ℚ × ℚ) : ℚ × ℚ :=
  (c * p.1 - s * p.2, s * p.1 + c * p.2)

/-- The translation applied before drawing a sticker in variant B:
```
const stickerSize = 80 * sticker.scale;
const x = (sticker.x / 100) * stripWidth - stickerSize / 2;
const y = (sticker.y / 100) * totalHeight - stickerSize / 2;
ctx.translate(x + stickerSize / 2, y + stickerSize / 2);
```
-/
def stickerTranslate (st : StickerPosition) (canvasW canvasH : ℚ) : ℚ × ℚ :=
  let stickerSize := 80 * st.scale
  let x := st.x / 100 * canvasW - stickerSize / 2
  let y := st.y / 100 * canvasH - stickerSize / 2
  (x + stickerSize / 2, y + stickerSize / 2)

/-- Canvas position of the drawn artwork's center (variant B sticker draw):
the artwork is drawn at local rectangle
`(-stickerSize / 2, -stickerSize / 2, stickerSize, stickerSize)`, so its
local center is the origin, which the rotated-and-translated context maps
to the translation point. -/
def stickerDrawnCenter (st : StickerPosition) (canvasW canvasH c s : ℚ) : ℚ × ℚ :=
  let t := stickerTranslate st canvasW canvasH
  let stickerSize := 80 * st.scale
  let localCenter : ℚ × ℚ :=
    (-(stickerSize / 2) + stickerSize / 2, -(stickerSize / 2) + stickerSize / 2)
  (t.1 + (rotatePoint c s localCenter).1, t.2 + (rotatePoint c s localCenter).2)

/-- C7: the variant-B sticker draw translates the context to
`((x / 100) * W, (y / 100) * H)` and draws the artwork centered there; in
particular a sticker placed at relative position (50%, 50%) has its visual
center at `(W / 2, H / 2)` for every canvas size, scale and rotation. -/
theorem sticker_relative_center (st : StickerPosition) (W H c s : ℚ) :
    stickerTranslate st W H = (st.x / 100 * W, st.y / 100 * H) ∧
    stickerDrawnCenter st W H c s = (st.x / 100 * W, st.y / 100 * H) ∧
    ∀ (id ty : String) (rot scale c' s' : ℚ),
      stickerDrawnCenter ⟨id, ty, 50, 50, rot, scale⟩ W H c' s' = (W / 2, H / 2) := by
  refine ⟨?_, ?_, fun id ty rot scale c' s' => ?_⟩
  · simp only [stickerTranslate, Prod.mk.injEq]
    constructor <;> ring
  · simp only [stickerDrawnCenter, stickerTranslate, rotatePoint, Prod.mk.injEq]
    constructor <;> ring
  · simp only [stickerDrawnCenter, stickerTranslate, rotatePoint, Prod.mk.injEq]
    constructor <;> ring

/-- Round to the nearest integer, ties to even — the rounding a
`Uint8ClampedArray` element store performs after clamping. -/
def roundHalfEven (q : ℚ) : ℤ :=
  let f := ⌊q⌋
  if q - f < 1 / 2 then f
  else if 1 / 2 < q - f then f + 1
  else if f % 2 = 0 then f else f + 1

/-- A store into a `Uint8ClampedArray` element: clamp to `[0, 255]`, then
round to nearest (ties to even). -/
def byteStore (q : ℚ) : ℤ :=
  roundHalfEven (min 255 (max 0 q))

theorem roundHalfEven_bounds (q : ℚ) :
    ⌊q⌋ ≤ roundHalfEven q ∧ roundHalfEven q ≤ ⌊q⌋ + 1 := by
  unfold roundHalfEven
  dsimp only
  split_ifs <;> omega

/-- Every `Uint8ClampedArray` store lands in `[0, 255]`. -/
theorem byteStore_range (q : ℚ) : 0 ≤ byteStore q ∧ byteStore q ≤ 255 := by
  have h0 : (0 : ℚ) ≤ min 255 (max 0 q) := le_min (by norm_num) (le_max_left 0 q)
  have h255 : min 255 (max 0 q) ≤ 255 := min_le_left _ _
  have hf0 : (0 : ℤ) ≤ ⌊min 255 (max 0 q)⌋ := Int.floor_nonneg.mpr h0
  have hf255 : ⌊min 255 (max 0 q)⌋ ≤ 255 := by
    have h := Int.floor_le_floor h255
    simpa using h
  have hb := roundHalfEven_bounds (min 255 (max 0 q))
  constructor
  · exact le_trans hf0 hb.1
  · by_cases heq : ⌊min 255 (max 0 q)⌋ = 255
    · have hge : (255 : ℚ) ≤ min 255 (max 0 q) := by
        have h := Int.le_floor.mp (le_of_eq heq.symm)
        exact_mod_cast h
      have hxeq : min 255 (max 0 q) = 255 := le_antisymm h255 hge
      unfold byteStore
      rw [hxeq]
      norm_num [roundHalfEven]
    · have h254 : ⌊min 255 (max 0 q)⌋ ≤ 254 := by omega
      have := hb.2
      unfold byteStore
      omega

/-- Per-pixel color stage of variant B's `applyRetroFilter`: each channel
read from the image data is a byte; each assignment back into the
`Uint8ClampedArray` clamps and rounds (`byteStore`).  Source:
```
data[i]     = Math.min(255, r * 1.1 + 20);
data[i + 1] = Math.min(255, g * 0.95 + 10);
data[i + 2] = Math.min(255, b * 0.85);
data[i]     = Math.min(255, Math.max(0, (data[i] - 128) * 1.1 + 128));
data[i + 1] = Math.min(255, Math.max(0, (data[i + 1] - 128) * 1.1 + 128));
data[i + 2] = Math.min(255, Math.max(0, (data[i + 2] - 128) * 1.1 + 128));
```
-/
def retroPixel (r g b : ℤ) : ℤ × ℤ × ℤ :=
  let r1 := byteStore (min 255 ((r : ℚ) * 1.1 + 20))
  let g1 := byteStore (min 255 ((g : ℚ) * 0.95 + 10))
  let b1 := byteStore (min 255 ((b : ℚ) * 0.85))
  let r2 := byteStore (min 255 (max 0 (((r1 : ℚ) - 128) * 1.1 + 128)))
  let g2 := byteStore (min 255 (max 0 (((g1 : ℚ) - 128) * 1.1 + 128)))
  let b2 := byteStore (min 255 (max 0 (((b1 : ℚ) - 128) * 1.1 + 128)))
  (r2, g2, b2)

/-- The warm-tone stage as the spec words it: `min(255, 1.1 r + 20)` on
red. -/
def specWarmR (r : ℚ) : ℚ := min 255 (1.1 * r + 20)

/-- The warm-tone stage as the spec words it: `min(255, 0.95 g + 10)` on
green. -/
def specWarmG (g : ℚ) : ℚ := min 255 (0.95 * g + 10)

/-- The warm-tone stage as the spec words it: `min(255, 0.85 b)` on
blue. -/
def specWarmB (b : ℚ) : ℚ := min 255 (0.85 * b)

/-- The contrast stretch as the spec words it:
`c ↦ min(255, max(0, (c - 128) * 1.1 + 128))`. -/
def specContrast (c : ℚ) : ℚ := min 255 (max 0 ((c - 128) * 1.1 + 128))

/-- C8: for every input byte triple, the retro filter's per-pixel color
stage is exactly the claimed warm-tone maps followed by the claimed
contrast stretch (each composed with the `Uint8ClampedArray` store), and
every output channel lies in `[0, 255]`. -/
theorem retro_filter_pixel_stage (r g b : ℤ)
    (h0r : 0 ≤ r) (h1r : r ≤ 255) (h0g : 0 ≤ g) (h1g : g ≤ 255)
    (h0b : 0 ≤ b) (h1b : b ≤ 255) :
    retroPixel r g b =
      (byteStore (specContrast (byteStore (specWarmR r) : ℤ)),
       byteStore (specContrast (byteStore (specWarmG g) : ℤ)),
       byteStore (specContrast (byteStore (specWarmB b) : ℤ))) ∧
    (0 ≤ (retroPixel r g b).1 ∧ (retroPixel r g b).1 ≤ 255) ∧
    (0 ≤ (retroPixel r g b).2.1 ∧ (retroPixel r g b).2.1 ≤ 255) ∧
    (0 ≤ (retroPixel r g b).2.2 ∧ (retroPixel r g b).2.2 ≤ 255) := by
  have hr : ((r : ℚ)) * 1.1 + 20 = 1.1 * (r : ℚ) + 20 := by ring
  have hg : ((g : ℚ)) * 0.95 + 10 = 0.95 * (g : ℚ) + 10 := by ring
  have hb : ((b : ℚ)) * 0.85 = 0.85 * (b : ℚ) := by ring
  refine ⟨?_, ?_, ?_, ?_⟩
  · simp only [retroPixel, specWarmR, specWarmG, specWarmB, specContrast,
      hr, hg, hb]
  · exact byteStore_range _
  · exact byteStore_range _
  · exact byteStore_range _

/-- Witness for `retro_filter_pixel_stage` at the byte triple
(10, 200, 77). -/
theorem retro_filter_pixel_stage_witness :
    (0 : ℤ) ≤ 10 ∧ (10 : ℤ) ≤ 255 ∧ (0 : ℤ) ≤ 200 ∧ (200 : ℤ) ≤ 255 ∧
    (0 : ℤ) ≤ 77 ∧ (77 : ℤ) ≤ 255 ∧
    retroPixel 10 200 77 =
      (byteStore (specContrast (byteStore (specWarmR 10) : ℤ)),
       byteStore (specContrast (byteStore (specWarmG 200) : ℤ)),
       byteStore (specContrast (byteStore (specWarmB 77) : ℤ))) ∧
    0 ≤ (retroPixel 10 200 77).1 ∧ (retroPixel 10 200 77).1 ≤ 255 := by
  have h := retro_filter_pixel_stage 10 200 77 (by norm_num) (by norm_num)
    (by norm_num) (by norm_num) (by norm_num) (by norm_num)
  exact ⟨by norm_num, by norm_num, by norm_num, by norm_num, by norm_num,
    by norm_num, h.1, h.2.1.1, h.2.1.2⟩

/-- The session state the final-screen actions can read or mutate (variant
A; none of the three actions below calls any state setter). -/
structure SessionState where
  photos : List CapturedPhoto
  stickers : List StickerPosition
  filmStripDataUrl : String
  filmStripReady : Bool
deriving DecidableEq, Repr

/-- An externally visible output effect of the final-screen actions. -/
inductive OutputAction
  | saveToGallery (fileName : String)
  | webDownload (fileName : String)
  | openPrintDialog
  | saveToCache (fileName : String)
  | shareSheet (fileName : String)
deriving DecidableEq, Repr

/-- Variant A `downloadFilmStrip`: guarded by
`if (!filmStripDataUrl) return;`; on native it writes the file to the
gallery, on web it triggers a download.  It never mutates session state. -/
def downloadFilmStrip (st : SessionState) (isNative : Bool) (fileName : String) :
    SessionState × List OutputAction :=
  if st.filmStripDataUrl = "" then (st, [])
  else if isNative then (st, [.saveToGallery fileName])
  else (st, [.webDownload fileName])

/-- Variant A `printFilmStrip`: guarded by `if (!filmStripDataUrl) return;`;
otherwise opens the print window. -/
def printFilmStrip (st : SessionState) : SessionState × List OutputAction :=
  if st.filmStripDataUrl = "" then (st, []) else (st, [.openPrintDialog])

/-- Variant A `sharePhoto`: guarded by
`if (!filmStripDataUrl || !isNative) return;`; otherwise writes a cache
file and opens the share sheet. -/
def sharePhoto (st : SessionState) (isNative : Bool) (fileName : String) :
    SessionState × List OutputAction :=
  if st.filmStripDataUrl = "" ∨ isNative = false then (st, [])
  else (st, [.saveToCache fileName, .shareSheet fileName])

/-- C10: before a film strip has been generated (`filmStripDataUrl` is the
empty string, the JavaScript-falsy case), download, print and share all
return immediately: no output action is performed and the session state is
unchanged. -/
theorem output_actions_noop_without_strip (st : SessionState) (isNative : Bool)
    (fileName : String) (h : st.filmStripDataUrl = "") :
    downloadFilmStrip st isNative fileName = (st, []) ∧
    printFilmStrip st = (st, []) ∧
    sharePhoto st isNative fileName = (st, []) := by
  refine ⟨?_, ?_, ?_⟩ <;>
    simp [downloadFilmStrip, printFilmStrip, sharePhoto, h]

/-- Fresh session state for concrete witnesses. -/
def demoState : SessionState :=
  { photos := [demoPhoto], stickers := [demoSticker],
    filmStripDataUrl := "", filmStripReady := false }

/-- Witness for `output_actions_noop_without_strip` on a fresh session. -/
theorem output_actions_noop_without_strip_witness :
    demoState.filmStripDataUrl = "" ∧
    downloadFilmStrip demoState true "cybershot-2025-01-01.png" = (demoState, []) ∧
    printFilmStrip demoState = (demoState, []) ∧
    sharePhoto demoState true "cybershot-2025-01-01.png" = (demoState, []) := by
  have h := output_actions_noop_without_strip demoState true
    "cybershot-2025-01-01.png" rfl
  exact ⟨rfl, h.1, h.2.1, h.2.2⟩

end Photobooth
